import Mathlib

/-!
Shallow embedding of the study-assistant application (a browser study app:
streamed AI explanation, follow-up chat, text-to-speech, auto-generated quiz
with a persisted result history).

Sources embedded here:
- types.ts                     : the data model (QuestionType, QuizQuestion,
                                 QuizResult, ConversationMessage, ...)
- components/Quiz.tsx          : the quiz runner (answer recording, scoring in
                                 handleNext)
- components/StudySession.tsx  : the session orchestrator (explanation stream
                                 loop, chat turn with optimistic append and
                                 rollback, TTS toggle and stopAllAudio,
                                 handleQuizSubmit)
- services/geminiService.ts    : the AI gateway client (validateApiKey,
                                 generateQuestions, handleApiError)

Asynchronous streams are embedded as explicit lists of text fragments; the
single-threaded event-loop execution is embedded as a fold over those
fragments, with the `isCancelled` teardown flag represented by an
`Option Nat` schedule: `some k` means the session was torn down after the
k-th fragment check, `none` means no teardown occurs during the stream.
JavaScript numbers used as quiz scores are embedded as rationals (the spec
reads the score formula "within floating rounding").
-/

namespace ASL

/-- types.ts: `QuestionType = 'multiple-choice' | 'short-answer' | 'ox'`. -/
inductive QuestionType where
  | multipleChoice : QuestionType
  | shortAnswer : QuestionType
  | ox : QuestionType
deriving DecidableEq, Repr

/-- types.ts: `QuizQuestion`; `options` is optional (absent for short-answer). -/
structure QuizQuestion where
  question : String
  questionType : QuestionType
  options : Option (List String)
  answer : String
  explanation : String
deriving DecidableEq, Repr

/-- types.ts: `AchievementStandard {id, description}`. -/
structure AchievementStandard where
  id : String
  description : String
deriving DecidableEq, Repr

/-- types.ts: the two chat roles of `ConversationMessage`. -/
inductive Role where
  | user : Role
  | model : Role
deriving DecidableEq, Repr

/-- types.ts: `ConversationMessage {role, text}`. -/
structure ConversationMessage where
  role : Role
  text : String
deriving DecidableEq, Repr

/-- types.ts: `QuizResult`. `score` is a JS number, embedded as ℚ. -/
structure QuizResult where
  id : String
  date : String
  standardId : String
  standardDescription : String
  subject : String
  score : ℚ
  totalQuestions : Nat
  correctAnswers : Nat
deriving DecidableEq, Repr

/-! ### Date.prototype.toISOString

`handleQuizSubmit` stamps each result with `new Date().toISOString()`.  We
embed the clock reading as milliseconds since the Unix epoch (a `Nat`; the
app only ever runs at post-1970 instants) and reimplement the ISO-8601
formatting `YYYY-MM-DDTHH:mm:ss.sssZ` produced by `toISOString`. -/

/-- Left-pad the decimal rendering of `n` with zeros to `width` digits. -/
def padZeros (width n : Nat) : String :=
  let s := toString n
  String.mk (List.replicate (width - s.length) '0') ++ s

/-- Civil date (year, month, day) from days since 1970-01-01
(Gregorian calendar, the standard era-based algorithm). -/
def civilFromDays (z : Nat) : Nat × Nat × Nat :=
  let z' := z + 719468
  let era := z' / 146097
  let doe := z' % 146097
  let yoe := (doe - doe / 1460 + doe / 36524 - doe / 146096) / 365
  let y := yoe + era * 400
  let doy := doe - (365 * yoe + yoe / 4 - yoe / 100)
  let mp := (5 * doy + 2) / 153
  let d := doy - (153 * mp + 2) / 5 + 1
  let m := if mp < 10 then mp + 3 else mp - 9
  (if m ≤ 2 then y + 1 else y, m, d)

/-- `Date.prototype.toISOString` on a clock reading in ms since the epoch. -/
def toISOString (ms : Nat) : String :=
  let milli := ms % 1000
  let totalSeconds := ms / 1000
  let second := totalSeconds % 60
  let totalMinutes := totalSeconds / 60
  let minute := totalMinutes % 60
  let totalHours := totalMinutes / 60
  let hour := totalHours % 24
  let ymd := civilFromDays (totalHours / 24)
  padZeros 4 ymd.1 ++ "-" ++ padZeros 2 ymd.2.1 ++ "-" ++ padZeros 2 ymd.2.2 ++
    "T" ++ padZeros 2 hour ++ ":" ++ padZeros 2 minute ++ ":" ++
    padZeros 2 second ++ "." ++ padZeros 3 milli ++ "Z"

/-! ### Quiz.tsx: the quiz runner's final scoring (handleNext, last question)

In the runner, `userAnswers` and `selfAssessedCorrectness` are created as
`Array(questions.length).fill(null)`, so all three arrays share one length
and the indexed `reduce` over `userAnswers` (Quiz.tsx lines 56-67) is the
simultaneous recursion below.  A `null` entry is `Option.none`. -/

/-- Quiz.tsx lines 58-65: per-index correctness. Short-answer uses the
self-assessed flag (`=== true`, so `null`/`false` count as wrong); every
other type compares the recorded answer to `question.answer` with JS `===`
(exact, case-sensitive, no trimming). A `null` answer is never equal. -/
def isCorrectAt (q : QuizQuestion) (answer : Option String)
    (selfAssessed : Option Bool) : Bool :=
  match q.questionType with
  | QuestionType.shortAnswer => selfAssessed == some true
  | _ => answer == some q.answer

/-- Quiz.tsx lines 56-67: `correctCount`, the reduce over `userAnswers`
counting indices whose `isCorrectAt` holds. -/
def correctCount : List QuizQuestion → List (Option String) →
    List (Option Bool) → Nat
  | q :: qs, a :: as, s :: ss =>
      correctCount qs as ss + (if isCorrectAt q a s then 1 else 0)
  | [], _, _ => 0
  | _ :: _, [], _ => 0
  | _ :: _, _ :: _, [] => 0

/-- Quiz.tsx line 69: `scorePercentage = (correctCount / questions.length) * 100`. -/
def scorePercentage (c total : Nat) : ℚ := ((c : ℚ) / (total : ℚ)) * 100

/-- StudySession.tsx lines 270-284 (`handleQuizSubmit`): builds the
`QuizResult` from the runner's emission.  `id` and `date` come from two
separate `new Date().toISOString()` calls, embedded as two clock readings
`t1` and `t2` (ms since epoch), taken in immediate succession. -/
def handleQuizSubmit (standard : AchievementStandard) (subjectName : String)
    (t1 t2 : Nat) (score : ℚ) (correctAnswers totalQuestions : Nat) :
    QuizResult :=
  { id := toISOString t1
    date := toISOString t2
    standardId := standard.id
    standardDescription := standard.description
    subject := subjectName
    score := score
    totalQuestions := totalQuestions
    correctAnswers := correctAnswers }

/-- Quiz.tsx lines 49-72 composed with StudySession.tsx lines 270-284: the
`QuizResult` emitted when `handleNext` runs on the last question and calls
`onSubmit(scorePercentage, correctCount, questions.length)`. -/
def quizFinalResult (questions : List QuizQuestion)
    (userAnswers : List (Option String)) (selfAssessed : List (Option Bool))
    (standard : AchievementStandard) (subjectName : String) (t1 t2 : Nat) :
    QuizResult :=
  let c := correctCount questions userAnswers selfAssessed
  handleQuizSubmit standard subjectName t1 t2
    (scorePercentage c questions.length) c questions.length

/-! ### StudySession.tsx: the explanation stream loop (fetchExplanation)

StudySession.tsx lines 116-152.  The effect's closure variable `isCancelled`
starts false and is set true by the effect cleanup (teardown: the standard
changes or the component unmounts).  The loop body is

  for await (const chunk of stream) {
    if (isCancelled) break;
    currentText += chunk.text;
    setExplanation(currentText);
  }

Teardown is a schedule `cancelAt : Option Nat`: `some k` means `isCancelled`
becomes true before the k-th `if (isCancelled)` check (so exactly the first
k fragments are applied), `none` means no teardown. -/

/-- StudySession.tsx lines 129-133: the explanation stream loop.  Returns
the list of texts published by `setExplanation`, in order (one entry per
applied fragment); `acc` is `currentText` so far.  A `some 0` schedule
means `isCancelled` is true at the check, so the loop breaks. -/
def fetchExplanationLoop : List String → Option Nat → String → List String
  | [], _, _ => []
  | f :: fs, none, acc => (acc ++ f) :: fetchExplanationLoop fs none (acc ++ f)
  | _ :: _, some 0, _ => []
  | f :: fs, some (k + 1), acc =>
      (acc ++ f) :: fetchExplanationLoop fs (some k) (acc ++ f)

/-- The explanation text displayed once the loop has finished: the last
published text, or the initial `setExplanation('')` value when no fragment
was applied. -/
def explanationText (frags : List String) (cancelAt : Option Nat) : String :=
  ((fetchExplanationLoop frags cancelAt "").getLast?).getD ""

/-- The concatenation f1 ++ f2 ++ ... ++ fn of a fragment list. -/
def concatFrags : List String → String
  | [] => ""
  | f :: fs => f ++ concatFrags fs

/-! ### StudySession.tsx: the chat turn (handleAskQuestion)

StudySession.tsx lines 162-193.  On submit the turn optimistically appends
the user message and an empty placeholder model message, then streams the
answer; each chunk is appended to the last message's text when that message
has the model role.  On a stream error the turn removes the last two
messages (`prev.slice(0, -2)`). -/

/-- StudySession.tsx lines 177-184: apply one chat chunk.  JS mutates the
last element of a copied array in place; here the last element is rebuilt.
The empty-transcript arm is unreachable in the app (the optimistic append
runs first), where JS would fault on `undefined.role`. -/
def applyChatChunk (conv : List ConversationMessage) (chunk : String) :
    List ConversationMessage :=
  match conv.getLast? with
  | none => conv
  | some last =>
      if last.role = Role.model then
        conv.dropLast ++ [⟨Role.model, last.text ++ chunk⟩]
      else conv

/-- StudySession.tsx lines 175-185: the chat stream loop.  Unlike
`fetchExplanationLoop`, the source loop body contains no cancellation
check, so the teardown schedule argument is unused: every delivered
fragment is applied. -/
def handleAskQuestionLoop (frags : List String) (_cancelAt : Option Nat)
    (conv : List ConversationMessage) : List ConversationMessage :=
  frags.foldl applyChatChunk conv

/-- StudySession.tsx lines 162-193: one whole chat turn on transcript
`conv`.  `frags` are the fragments delivered before the stream either
completes (`errored = false`) or raises (`errored = true`); the error
branch is `setConversation(prev => prev.slice(0, -2))`. -/
def handleAskQuestion (conv : List ConversationMessage) (question : String)
    (frags : List String) (errored : Bool) : List ConversationMessage :=
  let started := conv ++ [⟨Role.user, question⟩, ⟨Role.model, ""⟩]
  let streamed := handleAskQuestionLoop frags none started
  if errored then streamed.dropLast.dropLast else streamed

/-! ### StudySession.tsx: TTS playback state (stopAllAudio, handleToggleSpeak)

StudySession.tsx lines 83-114 and 195-235.  The refs `audioSourceRef` and
`audioContextRef` and the flags `isSpeaking` / `isLoadingTTS` are the
session's audio state.  `close()` on an `AudioContext` resolves a promise
whose callback nulls the ref; the single-threaded event loop runs that
microtask before the next user toggle, so the embedding applies it
directly. -/

/-- A held `AudioContext`; `closed` mirrors `state === 'closed'`. -/
structure AudioCtx where
  closed : Bool
deriving DecidableEq, Repr

/-- The session's audio-playback state. -/
structure TTSState where
  isSpeaking : Bool
  isLoadingTTS : Bool
  audioSource : Option Unit
  audioContext : Option AudioCtx
  ttsError : Option String
deriving DecidableEq, Repr

/-- StudySession.tsx lines 97-114 (`stopAllAudio`): stop and drop the
source ref; close and drop the context ref unless its state is already
closed (the source keeps an already-closed context ref); clear both flags. -/
def stopAllAudio (s : TTSState) : TTSState :=
  let ctx := match s.audioContext with
    | some c => if c.closed then some c else none
    | none => none
  { s with audioSource := none, audioContext := ctx,
           isSpeaking := false, isLoadingTTS := false }

/-- StudySession.tsx lines 195-235 (`handleToggleSpeak`).  `synth` is the
awaited synthesis/decoding outcome: `Except.ok` carries the audio payload,
`Except.error` the thrown message.  While speaking or loading the toggle
just runs `stopAllAudio`; with an empty explanation it is a no-op; on
success a fresh open context and source are held and the flags switch to
speaking; on error the message is stored and `stopAllAudio` runs. -/
def handleToggleSpeak (s : TTSState) (explanation : String)
    (synth : Except String String) : TTSState :=
  if s.isSpeaking || s.isLoadingTTS then stopAllAudio s
  else if explanation = "" then s
  else
    match synth with
    | Except.ok _ =>
        { s with isLoadingTTS := false, isSpeaking := true,
                 audioSource := some (), audioContext := some ⟨false⟩,
                 ttsError := none }
    | Except.error e =>
        stopAllAudio { s with isLoadingTTS := true, ttsError := some e }

/-! ### geminiService.ts: the AI gateway client

geminiService.ts.  The module-level mutable `ai` client is embedded as an
explicit `Option String` (the key the client was built with) threaded
through `validateApiKey`.  Backend responses are embedded as values of a
small JSON type (what `JSON.parse` would produce) or as thrown error
messages. -/

/-- A JSON value, as produced by `JSON.parse`. -/
inductive Json where
  | null : Json
  | bool : Bool → Json
  | num : Int → Json
  | str : String → Json
  | arr : List Json → Json
  | obj : List (String × Json) → Json
deriving Repr

/-- Does the character list `s` start with `pat`? -/
def charsStartWith : List Char → List Char → Bool
  | _, [] => true
  | [], _ :: _ => false
  | c :: cs, p :: ps => c == p && charsStartWith cs ps

/-- Does the character list `s` contain `pat` as a contiguous run? -/
def charsContain : List Char → List Char → Bool
  | [], pat => pat.isEmpty
  | c :: cs, pat => charsStartWith (c :: cs) pat || charsContain cs pat

/-- JS `String.prototype.includes`. -/
def strIncludes (s pat : String) : Bool := charsContain s.data pat.data

/-- geminiService.ts lines 22, 49: the two backend error-message shapes the
client treats as an authentication failure. -/
def isAuthFailureMsg (msg : String) : Bool :=
  strIncludes msg "API key not valid" ||
    strIncludes msg "Requested entity was not found."

/-- geminiService.ts line 23: the normalized invalid-key message of
`handleApiError`. -/
def invalidKeyMsg : String :=
  "API 키가 유효하지 않습니다. 올바른 키로 다시 설정해주세요."

/-- geminiService.ts line 27: the file-protocol diagnosis of
`handleApiError`. -/
def fileProtocolMsg : String :=
  "AI 모델 통신 오류: 파일을 직접 열어 실행하는 경우 브라우저 보안 정책으로 인해 AI 기능이 작동하지 않을 수 있습니다. 로컬 개발 서버를 통해 접속해주세요."

/-- geminiService.ts line 30: the generic network message of
`handleApiError`. -/
def networkMsg : String :=
  "AI 모델과 통신 중 오류가 발생했습니다. 네트워크 연결을 확인하거나 잠시 후 다시 시도해주세요."

/-- geminiService.ts lines 20-31 (`handleApiError`): normalize a thrown
error message; `fileProtocol` is `window.location.protocol === 'file:'`. -/
def handleApiError (fileProtocol : Bool) (msg : String) : String :=
  if isAuthFailureMsg msg then invalidKeyMsg
  else if fileProtocol then fileProtocolMsg
  else networkMsg

/-- geminiService.ts line 35: `validateApiKey` empty-key message. -/
def emptyKeyMsg : String := "API 키를 입력해주세요."

/-- geminiService.ts line 50: `validateApiKey` invalid-key message. -/
def validateInvalidKeyMsg : String :=
  "API 키가 유효하지 않습니다. Google AI Studio에서 발급받은 정확한 키인지 확인해주세요."

/-- geminiService.ts line 52: `validateApiKey` network-failure message. -/
def validateNetworkMsg : String :=
  "키를 확인하는 중 오류가 발생했습니다. 네트워크 연결을 확인해주세요."

/-- Outcome of the minimal validation round-trip call made on the
temporary client: success, or a thrown error's message. -/
inductive CallOutcome where
  | success : CallOutcome
  | failure : String → CallOutcome
deriving DecidableEq, Repr

/-- geminiService.ts lines 33-52 (`validateApiKey`): rejects an empty key;
otherwise builds a temporary client `new GoogleGenAI({apiKey})` (never
assigned to the module-level `ai`, which is returned untouched in every
branch) and maps the round-trip outcome to the normalized errors. -/
def validateApiKey (sharedAi : Option String) (apiKey : String)
    (outcome : CallOutcome) : Option String × Except String Unit :=
  if apiKey = "" then (sharedAi, Except.error emptyKeyMsg)
  else
    match outcome with
    | CallOutcome.success => (sharedAi, Except.ok ())
    | CallOutcome.failure msg =>
        if isAuthFailureMsg msg then
          (sharedAi, Except.error validateInvalidKeyMsg)
        else (sharedAi, Except.error validateNetworkMsg)

/-- geminiService.ts lines 120-123: a question-kind request
`{type, count}`; `count` is a JS number, embedded as an integer. -/
structure QuestionRequest where
  type : QuestionType
  count : Int
deriving DecidableEq, Repr

/-- What the backend interaction of `generateQuestions` delivers:
`parsed j` when the call succeeds and `JSON.parse(response.text)` yields
`j`; `badJson` when the call succeeds but `JSON.parse` throws; and
`requestError` when the call itself throws. -/
inductive BackendReply where
  | parsed : Json → BackendReply
  | badJson : String → BackendReply
  | requestError : String → BackendReply

/-- geminiService.ts lines 125-191 (`generateQuestions`): sums the
requested counts; when the total is 0 it returns the empty list with no
backend call; otherwise it issues the call and returns the `JSON.parse`d
response unchanged (`questions as QuizQuestion[]`, an unchecked cast with
no client-side schema validation), while any thrown error is normalized by
`handleApiError`.  The second component records whether the backend was
invoked. -/
def generateQuestions (requests : List QuestionRequest) (fileProtocol : Bool)
    (reply : BackendReply) : Except String Json × Bool :=
  if requests.foldl (fun sum r => sum + r.count) 0 = 0 then
    (Except.ok (Json.arr []), false)
  else
    match reply with
    | BackendReply.parsed j => (Except.ok j, true)
    | BackendReply.badJson m => (Except.error (handleApiError fileProtocol m), true)
    | BackendReply.requestError m =>
        (Except.error (handleApiError fileProtocol m), true)

/-! ### The spec-described response decoder (for the refinement claim)

The spec reads: "structured-decodes a fixed schema (question, type,
optional options, answer, explanation) per item, and returns the parsed
list. Fails with `GenerationError` if the response cannot be parsed into
that schema."  The decoder below follows those words; it is compared with
`generateQuestions` above, which performs no such validation. -/

/-- Look up a field of a JSON object. -/
def jsonField (fields : List (String × Json)) (key : String) : Option Json :=
  (fields.find? (fun p => p.fst == key)).map Prod.snd

/-- A JSON value as a string. -/
def jsonAsString : Json → Option String
  | Json.str s => some s
  | _ => none

/-- A JSON value as a list of strings. -/
def jsonAsStringList : Json → Option (List String)
  | Json.arr xs => xs.mapM jsonAsString
  | _ => none

/-- The `questionType` field values of the schema. -/
def decodeQuestionType : String → Option QuestionType
  | "multiple-choice" => some QuestionType.multipleChoice
  | "short-answer" => some QuestionType.shortAnswer
  | "ox" => some QuestionType.ox
  | _ => none

/-- Spec-described per-item decoding against the fixed schema
`{question, questionType, options?, answer, explanation}`. -/
def decodeQuizQuestion : Json → Option QuizQuestion
  | Json.obj fields => do
      let question ← jsonField fields "question" >>= jsonAsString
      let qt ← jsonField fields "questionType" >>= jsonAsString
      let questionType ← decodeQuestionType qt
      let options ← match jsonField fields "options" with
        | none => some none
        | some v => (jsonAsStringList v).map some
      let answer ← jsonField fields "answer" >>= jsonAsString
      let explanation ← jsonField fields "explanation" >>= jsonAsString
      pure ⟨question, questionType, options, answer, explanation⟩
  | _ => none

/-- Spec-described decoding of the whole response: an array of schema
items, each decoded by `decodeQuizQuestion`; anything else fails. -/
def decodeQuestionList : Json → Option (List QuizQuestion)
  | Json.arr xs => xs.mapM decodeQuizQuestion
  | _ => none

/-- The per-index correctness rule as the spec words it: the question is
short-answer and the self-assessment is strictly `true`, or the question is
multiple-choice/ox and the recorded answer equals `questions[i].answer`
exactly.  Compared against the source's `isCorrectAt`. -/
def claimCorrect (q : QuizQuestion) (a : Option String) (s : Option Bool) :
    Bool :=
  (q.questionType == QuestionType.shortAnswer && s == some true) ||
    (q.questionType != QuestionType.shortAnswer && a == some q.answer)

/-- The spec's worked scoring example: a multiple-choice question answered
"B", a short-answer question answered "Lyon" (expected "Paris"), an ox
question answered "O". -/
def sampleQuestions : List QuizQuestion :=
  [⟨"q1", QuestionType.multipleChoice, some ["A", "B", "C", "D", "E"], "B", "e1"⟩,
   ⟨"q2", QuestionType.shortAnswer, none, "Paris", "e2"⟩,
   ⟨"q3", QuestionType.ox, some ["O", "X"], "O", "e3"⟩]

/-- The spec example's recorded answers. -/
def sampleAnswers : List (Option String) := [some "B", some "Lyon", some "O"]

/-- The spec example's self-assessment array. -/
def sampleSelf : List (Option Bool) := [none, some false, none]

/-! ## Helper lemmas -/

/-- The counted correct answers never exceed the number of questions. -/
theorem correctCount_le_length (qs : List QuizQuestion) :
    ∀ as ss, correctCount qs as ss ≤ qs.length := by
  induction qs with
  | nil => intro as ss; cases as <;> cases ss <;> simp [correctCount]
  | cons q qs ih =>
      intro as ss
      cases as with
      | nil => simp [correctCount]
      | cons a as =>
          cases ss with
          | nil => simp [correctCount]
          | cons s ss =>
              have h := ih as ss
              simp only [correctCount, List.length_cons]
              split <;> omega

/-- The source's per-index rule coincides with the spec's wording. -/
theorem isCorrectAt_eq_claimCorrect (q : QuizQuestion) (a : Option String)
    (s : Option Bool) : isCorrectAt q a s = claimCorrect q a s := by
  rcases q with ⟨qq, qt, qo, qa, qe⟩
  cases qt
  case multipleChoice => rfl
  case ox => rfl
  case shortAnswer =>
    show (s == some true) = ((s == some true) || false)
    simp

/-- Applying one chat chunk to a transcript whose last message has the
model role appends the chunk to that message's text. -/
theorem applyChatChunk_model_last (xs : List ConversationMessage)
    (t c : String) :
    applyChatChunk (xs ++ [⟨Role.model, t⟩]) c =
      xs ++ [⟨Role.model, t ++ c⟩] := by
  simp [applyChatChunk]

/-- The chat stream loop on a transcript ending in a model message appends
the concatenation of all delivered fragments to that message, for every
teardown schedule (the source loop checks no cancellation flag). -/
theorem handleAskQuestionLoop_model_last (frags : List String)
    (t : Option Nat) (init : List ConversationMessage) (lastText : String) :
    handleAskQuestionLoop frags t (init ++ [⟨Role.model, lastText⟩]) =
      init ++ [⟨Role.model, lastText ++ concatFrags frags⟩] := by
  induction frags generalizing lastText with
  | nil => simp [handleAskQuestionLoop, concatFrags]
  | cons f fs ih =>
      simp only [handleAskQuestionLoop, List.foldl_cons,
        applyChatChunk_model_last, concatFrags]
      have := ih (lastText ++ f)
      simp only [handleAskQuestionLoop] at this
      rw [this, String.append_assoc]

/-- Without teardown the explanation loop publishes once per fragment. -/
theorem fetchExplanationLoop_length_none (frags : List String) :
    ∀ acc, (fetchExplanationLoop frags none acc).length = frags.length := by
  induction frags with
  | nil => intro acc; simp [fetchExplanationLoop]
  | cons f fs ih => intro acc; simp [fetchExplanationLoop, ih]

/-- Without teardown, the k-th published text is the accumulator followed
by the concatenation of the first k+1 fragments. -/
theorem fetchExplanationLoop_get_none (frags : List String) :
    ∀ k acc, k < frags.length →
      (fetchExplanationLoop frags none acc).get? k =
        some (acc ++ concatFrags (frags.take (k + 1))) := by
  induction frags with
  | nil => intro k acc h; simp at h
  | cons f fs ih =>
      intro k acc h
      cases k with
      | zero => simp [fetchExplanationLoop, concatFrags]
      | succ k =>
          have hk : k < fs.length := by simpa using h
          simp only [fetchExplanationLoop, List.get?_cons_succ, List.take,
            concatFrags, ih k (acc ++ f) hk, String.append_assoc]

/-- With teardown after `k` fragment checks, the explanation loop applies
exactly `min k n` of the `n` delivered fragments. -/
theorem fetchExplanationLoop_length_cancel (frags : List String) :
    ∀ k acc, (fetchExplanationLoop frags (some k) acc).length =
      min k frags.length := by
  induction frags with
  | nil => intro k acc; simp [fetchExplanationLoop]
  | cons f fs ih =>
      intro k acc
      cases k with
      | zero => simp [fetchExplanationLoop]
      | succ k =>
          simp only [fetchExplanationLoop, List.length_cons, ih]
          omega

/-- For a non-empty fragment list without teardown, the last published
text is the accumulator followed by the concatenation of all fragments. -/
theorem fetchExplanationLoop_getLast_none (frags : List String) :
    ∀ acc, frags ≠ [] →
      (fetchExplanationLoop frags none acc).getLast? =
        some (acc ++ concatFrags frags) := by
  induction frags with
  | nil => intro acc h; exact absurd rfl h
  | cons f fs ih =>
      intro acc _
      cases fs with
      | nil => simp [fetchExplanationLoop, concatFrags]
      | cons g gs =>
          have hne : (g :: gs : List String) ≠ [] := by simp
          rw [show fetchExplanationLoop (f :: g :: gs) none acc =
              (acc ++ f) :: fetchExplanationLoop (g :: gs) none (acc ++ f)
            from rfl]
          rw [show fetchExplanationLoop (g :: gs) none (acc ++ f) =
              (acc ++ f ++ g) :: fetchExplanationLoop gs none (acc ++ f ++ g)
            from rfl]
          rw [List.getLast?_cons_cons]
          rw [show (acc ++ f ++ g) ::
              fetchExplanationLoop gs none (acc ++ f ++ g) =
              fetchExplanationLoop (g :: gs) none (acc ++ f) from rfl]
          rw [ih (acc ++ f) hne]
          simp [concatFrags, String.append_assoc]

/-- Without teardown the final displayed explanation is the concatenation
of all fragments. -/
theorem explanationText_none (frags : List String) :
    explanationText frags none = concatFrags frags := by
  cases frags with
  | nil => rfl
  | cons f fs =>
      rw [explanationText,
        fetchExplanationLoop_getLast_none (f :: fs) "" (by simp)]
      simp

/-! ## Claim theorems -/

/-- C1: for every QuizResult emitted at quiz completion, its score equals
100 * correctAnswers / totalQuestions, 0 ≤ correctAnswers ≤ totalQuestions,
and totalQuestions is the length of the (non-empty) question list. -/
theorem quizResult_score_formula (questions : List QuizQuestion)
    (userAnswers : List (Option String)) (selfAssessed : List (Option Bool))
    (standard : AchievementStandard) (subjectName : String) (t1 t2 : Nat)
    (_hne : questions ≠ []) :
    (quizFinalResult questions userAnswers selfAssessed standard subjectName
        t1 t2).score =
      100 * ((quizFinalResult questions userAnswers selfAssessed standard
          subjectName t1 t2).correctAnswers : ℚ) /
        ((quizFinalResult questions userAnswers selfAssessed standard
          subjectName t1 t2).totalQuestions : ℚ) ∧
    0 ≤ (quizFinalResult questions userAnswers selfAssessed standard
        subjectName t1 t2).correctAnswers ∧
    (quizFinalResult questions userAnswers selfAssessed standard subjectName
        t1 t2).correctAnswers ≤
      (quizFinalResult questions userAnswers selfAssessed standard
        subjectName t1 t2).totalQuestions ∧
    (quizFinalResult questions userAnswers selfAssessed standard subjectName
        t1 t2).totalQuestions = questions.length := by
  refine ⟨?_, Nat.zero_le _, ?_, rfl⟩
  · simp only [quizFinalResult, handleQuizSubmit, scorePercentage]
    ring
  · exact correctCount_le_length questions userAnswers selfAssessed

/-- C1 witness: the score invariant evaluated on the spec's worked example
(non-emptiness discharged concretely). -/
theorem quizResult_score_formula_witness :
    (quizFinalResult sampleQuestions sampleAnswers sampleSelf ⟨"S1", "d"⟩
        "수학" 0 0).score =
      100 * ((quizFinalResult sampleQuestions sampleAnswers sampleSelf
          ⟨"S1", "d"⟩ "수학" 0 0).correctAnswers : ℚ) /
        ((quizFinalResult sampleQuestions sampleAnswers sampleSelf
          ⟨"S1", "d"⟩ "수학" 0 0).totalQuestions : ℚ) ∧
    0 ≤ (quizFinalResult sampleQuestions sampleAnswers sampleSelf
        ⟨"S1", "d"⟩ "수학" 0 0).correctAnswers ∧
    (quizFinalResult sampleQuestions sampleAnswers sampleSelf ⟨"S1", "d"⟩
        "수학" 0 0).correctAnswers ≤
      (quizFinalResult sampleQuestions sampleAnswers sampleSelf ⟨"S1", "d"⟩
        "수학" 0 0).totalQuestions ∧
    (quizFinalResult sampleQuestions sampleAnswers sampleSelf ⟨"S1", "d"⟩
        "수학" 0 0).totalQuestions = sampleQuestions.length :=
  quizResult_score_formula sampleQuestions sampleAnswers sampleSelf
    ⟨"S1", "d"⟩ "수학" 0 0 (by decide)

/-- C2: the runner counts an index as correct exactly when the question is
short-answer with a strictly-true self-assessment, or is multiple-choice/ox
with the recorded answer equal to the reference answer (exact string
match); on the spec's worked example this yields correctCount = 2 and
score = 200/3. -/
theorem quiz_scoring_rule :
    (∀ qs as ss, correctCount qs as ss =
        (qs.zip (as.zip ss)).countP fun x => claimCorrect x.1 x.2.1 x.2.2) ∧
    correctCount sampleQuestions sampleAnswers sampleSelf = 2 ∧
    scorePercentage (correctCount sampleQuestions sampleAnswers sampleSelf)
        sampleQuestions.length = 200 / 3 := by
  refine ⟨?_, by decide, ?_⟩
  · intro qs
    induction qs with
    | nil => intro as ss; cases as <;> cases ss <;> simp [correctCount]
    | cons q qs ih =>
        intro as ss
        cases as with
        | nil => simp [correctCount]
        | cons a as =>
            cases ss with
            | nil => simp [correctCount]
            | cons s ss =>
                simp [correctCount, ih, List.countP_cons,
                  isCorrectAt_eq_claimCorrect]
  · show scorePercentage 2 3 = 200 / 3
    norm_num [scorePercentage]

/-- C3 counterexample: the chat follow-up stream applies a fragment even
when the session was torn down before the fragment arrived (teardown
schedule `some 0`): the source loop checks no cancellation flag, so the
claim that a cancellation flag is checked before every fragment-induced
state mutation of both streams is false. -/
theorem chat_stream_applies_fragment_after_teardown :
    handleAskQuestionLoop ["frag"] (some 0)
        [⟨Role.user, "q"⟩, ⟨Role.model, ""⟩] ≠
      [⟨Role.user, "q"⟩, ⟨Role.model, ""⟩] := by decide

/-- C3 amended: the explanation stream is guarded by the `isCancelled`
flag — with teardown after k fragment checks it applies exactly
min k n fragments, none past the teardown — while the chat follow-up
stream has no cancellation check and appends every delivered fragment to
the placeholder model message regardless of the teardown schedule. -/
theorem stream_cancellation_behavior :
    (∀ (frags : List String) (k : Nat) (acc : String),
        (fetchExplanationLoop frags (some k) acc).length =
          min k frags.length) ∧
    (∀ (frags : List String) (t : Option Nat)
        (init : List ConversationMessage) (lastText : String),
        handleAskQuestionLoop frags t (init ++ [⟨Role.model, lastText⟩]) =
          init ++ [⟨Role.model, lastText ++ concatFrags frags⟩]) :=
  ⟨fun frags k acc => fetchExplanationLoop_length_cancel frags k acc,
   fun frags t init lastText =>
     handleAskQuestionLoop_model_last frags t init lastText⟩

/-- C4: a chat turn whose stream errors after any number of delivered
fragments rolls the transcript back to exactly its pre-turn value (the
optimistic user message and placeholder model message are removed). -/
theorem chat_error_rollback (conv : List ConversationMessage)
    (question : String) (frags : List String) :
    handleAskQuestion conv question frags true = conv := by
  have h : conv ++ [⟨Role.user, question⟩, ⟨Role.model, ""⟩] =
      (conv ++ [⟨Role.user, question⟩]) ++ [⟨Role.model, ""⟩] := by simp
  simp only [handleAskQuestion, h, handleAskQuestionLoop_model_last,
    if_true]
  simp

/-- C5: with no teardown, the explanation stream publishes once per
fragment, the k-th published text is the concatenation of the first k+1
fragments, and the final displayed text is the concatenation of all
fragments. -/
theorem explanation_stream_concat (frags : List String) (k : Nat)
    (h : k < frags.length) :
    (fetchExplanationLoop frags none "").length = frags.length ∧
    (fetchExplanationLoop frags none "").get? k =
      some (concatFrags (frags.take (k + 1))) ∧
    explanationText frags none = concatFrags frags := by
  refine ⟨fetchExplanationLoop_length_none frags "", ?_,
    explanationText_none frags⟩
  simpa using fetchExplanationLoop_get_none frags k "" h

/-- C5 witness: the stream properties evaluated on three concrete
fragments at index 1. -/
theorem explanation_stream_concat_witness :
    (fetchExplanationLoop ["서론", "본론", "결론"] none "").length =
      (["서론", "본론", "결론"] : List String).length ∧
    (fetchExplanationLoop ["서론", "본론", "결론"] none "").get? 1 =
      some (concatFrags ((["서론", "본론", "결론"] : List String).take 2)) ∧
    explanationText ["서론", "본론", "결론"] none =
      concatFrags ["서론", "본론", "결론"] :=
  explanation_stream_concat ["서론", "본론", "결론"] 1 (by decide)

/-- C6: a request list with non-negative per-kind counts summing to 0
makes generateQuestions return the empty list immediately, with no backend
call (second component false). -/
theorem generateQuestions_zero_total (requests : List QuestionRequest)
    (_hnn : ∀ r ∈ requests, (0 : Int) ≤ r.count)
    (hsum : requests.foldl (fun sum r => sum + r.count) 0 = 0) :
    ∀ (fileProtocol : Bool) (reply : BackendReply),
      generateQuestions requests fileProtocol reply =
        (Except.ok (Json.arr []), false) := by
  intro fp reply
  simp [generateQuestions, hsum]

/-- C6 witness: three zero-count requests, evaluated concretely. -/
theorem generateQuestions_zero_total_witness :
    generateQuestions
        [⟨QuestionType.multipleChoice, 0⟩, ⟨QuestionType.shortAnswer, 0⟩,
         ⟨QuestionType.ox, 0⟩] false (BackendReply.badJson "oops") =
      (Except.ok (Json.arr []), false) :=
  generateQuestions_zero_total _ (by decide) (by decide) false _

/-- C7 counterexample: the backend response `5` is valid JSON that cannot
be decoded into the fixed question schema, yet generateQuestions (with a
positive requested total) succeeds and returns it unvalidated — the claim
that it fails whenever the response cannot be parsed into the schema is
false. -/
theorem generateQuestions_no_schema_validation :
    decodeQuestionList (Json.num 5) = none ∧
    (generateQuestions [⟨QuestionType.multipleChoice, 1⟩] false
        (BackendReply.parsed (Json.num 5))).1 = Except.ok (Json.num 5) :=
  ⟨rfl, rfl⟩

/-- C7 amended: with a positive requested total, generateQuestions returns
the JSON.parse of the response text unchanged and without client-side
schema validation; it fails exactly when the call or JSON.parse throws, and
then with the message normalized by handleApiError (not a dedicated
generation error). -/
theorem generateQuestions_parse_behavior (requests : List QuestionRequest)
    (fileProtocol : Bool) (reply : BackendReply)
    (hsum : requests.foldl (fun sum r => sum + r.count) 0 ≠ 0) :
    ((generateQuestions requests fileProtocol reply).1.isOk = true ↔
        ∃ j, reply = BackendReply.parsed j) ∧
    (∀ j, reply = BackendReply.parsed j →
        (generateQuestions requests fileProtocol reply).1 = Except.ok j) ∧
    (∀ m, reply = BackendReply.badJson m →
        (generateQuestions requests fileProtocol reply).1 =
          Except.error (handleApiError fileProtocol m)) ∧
    (∀ m, reply = BackendReply.requestError m →
        (generateQuestions requests fileProtocol reply).1 =
          Except.error (handleApiError fileProtocol m)) ∧
    (generateQuestions requests fileProtocol reply).2 = true := by
  cases reply <;> simp [generateQuestions, hsum, Except.isOk, Except.toBool]

/-- C7 witness: a parsed response is returned as-is for a positive total. -/
theorem generateQuestions_parse_behavior_witness :
    (generateQuestions [⟨QuestionType.ox, 2⟩] false
        (BackendReply.parsed (Json.arr []))).1 = Except.ok (Json.arr []) :=
  (generateQuestions_parse_behavior [⟨QuestionType.ox, 2⟩] false
      (BackendReply.parsed (Json.arr [])) (by decide)).2.1 (Json.arr []) rfl

/-- C8: toggling while speaking or loading runs the stop path; stopAllAudio
is idempotent and safe when no resource is held (it only clears the
flags); and after start-then-stop no playback handle or audio context is
held and both flags are false. -/
theorem speech_toggle_stop_cleanup (s : TTSState) (e : String)
    (synth : Except String String) (audio : String)
    (synth2 : Except String String) :
    ((s.isSpeaking = true ∨ s.isLoadingTTS = true) →
        handleToggleSpeak s e synth = stopAllAudio s) ∧
    stopAllAudio (stopAllAudio s) = stopAllAudio s ∧
    (s.audioSource = none → s.audioContext = none →
        stopAllAudio s = { s with isSpeaking := false, isLoadingTTS := false }) ∧
    (s.isSpeaking = false → s.isLoadingTTS = false → e ≠ "" →
        (handleToggleSpeak (handleToggleSpeak s e (Except.ok audio)) e
            synth2).isSpeaking = false ∧
        (handleToggleSpeak (handleToggleSpeak s e (Except.ok audio)) e
            synth2).isLoadingTTS = false ∧
        (handleToggleSpeak (handleToggleSpeak s e (Except.ok audio)) e
            synth2).audioSource = none ∧
        (handleToggleSpeak (handleToggleSpeak s e (Except.ok audio)) e
            synth2).audioContext = none) := by
  refine ⟨?_, ?_, ?_, ?_⟩
  · rintro (h | h) <;> simp [handleToggleSpeak, h]
  · rcases s with ⟨sp, ld, src, ctx, err⟩
    cases ctx with
    | none => simp [stopAllAudio]
    | some c =>
        rcases c with ⟨b⟩
        cases b <;> simp [stopAllAudio]
  · intro h1 h2
    simp [stopAllAudio, h1, h2]
  · intro h1 h2 h3
    simp [handleToggleSpeak, stopAllAudio, h1, h2, h3]

/-- C8 witness: start-then-stop from the initial audio state leaves no
handle, no context and both flags false. -/
theorem speech_toggle_stop_cleanup_witness :
    (handleToggleSpeak (handleToggleSpeak ⟨false, false, none, none, none⟩
        "설명" (Except.ok "AAA")) "설명" (Except.ok "BBB")).isSpeaking = false ∧
    (handleToggleSpeak (handleToggleSpeak ⟨false, false, none, none, none⟩
        "설명" (Except.ok "AAA")) "설명" (Except.ok "BBB")).isLoadingTTS = false ∧
    (handleToggleSpeak (handleToggleSpeak ⟨false, false, none, none, none⟩
        "설명" (Except.ok "AAA")) "설명" (Except.ok "BBB")).audioSource = none ∧
    (handleToggleSpeak (handleToggleSpeak ⟨false, false, none, none, none⟩
        "설명" (Except.ok "AAA")) "설명" (Except.ok "BBB")).audioContext = none :=
  (speech_toggle_stop_cleanup ⟨false, false, none, none, none⟩ "설명"
      (Except.ok "AAA") "AAA" (Except.ok "BBB")).2.2.2 rfl rfl (by decide)

/-- C9: validateApiKey never mutates the shared module-level client, and
for a non-empty key it fails with the invalid-key error exactly when the
backend round-trip reports an authentication failure, and with the network
error on any other failure. -/
theorem validateApiKey_frame_and_errors (sharedAi : Option String)
    (apiKey : String) (outcome : CallOutcome) :
    (validateApiKey sharedAi apiKey outcome).1 = sharedAi ∧
    (apiKey ≠ "" →
      (((validateApiKey sharedAi apiKey outcome).2 =
          Except.error validateInvalidKeyMsg) ↔
        ∃ m, outcome = CallOutcome.failure m ∧ isAuthFailureMsg m = true) ∧
      (∀ m, outcome = CallOutcome.failure m → isAuthFailureMsg m = false →
        (validateApiKey sharedAi apiKey outcome).2 =
          Except.error validateNetworkMsg)) := by
  have hne : validateNetworkMsg ≠ validateInvalidKeyMsg := by decide
  constructor
  · by_cases hk : apiKey = ""
    · simp [validateApiKey, hk]
    · cases outcome with
      | success => simp [validateApiKey, hk]
      | failure m =>
          by_cases hm : isAuthFailureMsg m <;> simp [validateApiKey, hk, hm]
  · intro hk
    cases outcome with
    | success =>
        refine ⟨?_, ?_⟩
        · simp [validateApiKey, hk]
        · intro m hm
          exact absurd hm (by simp)
    | failure m =>
        by_cases hm : isAuthFailureMsg m
        · have hres : (validateApiKey sharedAi apiKey
              (CallOutcome.failure m)).2 =
              Except.error validateInvalidKeyMsg := by
            simp [validateApiKey, if_neg hk, hm]
          refine ⟨?_, ?_⟩
          · rw [hres]
            exact ⟨fun _ => ⟨m, rfl, hm⟩, fun _ => rfl⟩
          · intro m' hm' hfalse
            obtain rfl : m = m' := by injection hm'
            rw [hm] at hfalse
            cases hfalse
        · have hres : (validateApiKey sharedAi apiKey
              (CallOutcome.failure m)).2 =
              Except.error validateNetworkMsg := by
            simp [validateApiKey, if_neg hk, hm]
          refine ⟨?_, ?_⟩
          · rw [hres]
            constructor
            · intro habs
              exact absurd (Except.error.inj habs) hne
            · rintro ⟨m', hm', hauth⟩
              obtain rfl : m = m' := by injection hm'
              simp [hauth] at hm
          · intro m' hm' _
            obtain rfl : m = m' := by injection hm'
            exact hres

/-- C9 witness: an authentication-failure round-trip on a non-empty key
yields the invalid-key error, with the shared client untouched. -/
theorem validateApiKey_frame_and_errors_witness :
    (validateApiKey (some "k0") "abc"
        (CallOutcome.failure "API key not valid")).1 = some "k0" ∧
    (validateApiKey (some "k0") "abc"
        (CallOutcome.failure "API key not valid")).2 =
      Except.error validateInvalidKeyMsg :=
  ⟨(validateApiKey_frame_and_errors (some "k0") "abc"
      (CallOutcome.failure "API key not valid")).1,
   ((validateApiKey_frame_and_errors (some "k0") "abc"
      (CallOutcome.failure "API key not valid")).2 (by decide)).1.mpr
     ⟨"API key not valid", rfl, by decide⟩⟩

/-- C10 counterexample: `id` and `date` come from two separate clock
readings; when the millisecond advances between them (readings 0 and 1)
the emitted QuizResult has id ≠ date, so the claim that every result's id
equals its date is false. -/
theorem quizResult_id_date_distinct :
    (handleQuizSubmit ⟨"S-1", "desc"⟩ "수학" 0 1 100 1 1).id ≠
      (handleQuizSubmit ⟨"S-1", "desc"⟩ "수학" 0 1 100 1 1).date := by
  decide

/-- C10 amended: id and date are each the ISO-8601 rendering of their own
clock reading, taken in immediate succession; they coincide whenever the
two readings fall in the same millisecond, and any two results created at
the same millisecond receive identical ids. -/
theorem quizResult_id_date_timestamps (standard : AchievementStandard)
    (subjectName : String) (t1 t2 : Nat) (score : ℚ)
    (correctAnswers totalQuestions : Nat)
    (standard' : AchievementStandard) (subjectName' : String) (t2' : Nat)
    (score' : ℚ) (correctAnswers' totalQuestions' : Nat) :
    (handleQuizSubmit standard subjectName t1 t2 score correctAnswers
        totalQuestions).id = toISOString t1 ∧
    (handleQuizSubmit standard subjectName t1 t2 score correctAnswers
        totalQuestions).date = toISOString t2 ∧
    (t1 = t2 →
        (handleQuizSubmit standard subjectName t1 t2 score correctAnswers
            totalQuestions).id =
          (handleQuizSubmit standard subjectName t1 t2 score correctAnswers
            totalQuestions).date) ∧
    (handleQuizSubmit standard subjectName t1 t2 score correctAnswers
        totalQuestions).id =
      (handleQuizSubmit standard' subjectName' t1 t2' score' correctAnswers'
        totalQuestions').id := by
  refine ⟨rfl, rfl, ?_, rfl⟩
  intro h
  simp [handleQuizSubmit, h]

/-- C10 witness: with both readings at millisecond 0 the id equals the
date. -/
theorem quizResult_id_date_timestamps_witness :
    (handleQuizSubmit ⟨"S-1", "desc"⟩ "수학" 0 0 100 1 1).id =
      (handleQuizSubmit ⟨"S-1", "desc"⟩ "수학" 0 0 100 1 1).date :=
  (quizResult_id_date_timestamps ⟨"S-1", "desc"⟩ "수학" 0 0 100 1 1
      ⟨"S-1", "desc"⟩ "수학" 0 100 1 1).2.2.1 rfl

end ASL
